import Mathlib

/-!
Verification of the Sense HAT joystick driver (`src/lib.rs`) against its
natural-language specification.

The development shallowly embeds the driver's data model and control flow:

* `Direction` / `Action` with their `TryFromPrimitive` decoders
  (`Direction.tryFromPrimitive`, `Action.tryFromPrimitive`);
* the `Stream::poll_next` decode loop as `pollNext`, a function over the
  finite prefix of results that the inner `poll_event` call will yield
  before reporting `Pending` (modelled by the end of the list).  Its result
  type `PollResult` mirrors Rust's `Poll<Option<io::Result<JoyStickEvent>>>`
  together with a distinguished `panic` outcome for the `unwrap` calls;
* `JoyStick::open` as `JoyStick.open`, a function over an abstract
  enumeration environment (`Env`) recording the glob result and the
  behaviour of `Device::open` on each path; it also returns the trace of
  paths on which `Device::open` was invoked.

Machine integers are modelled as `Nat` (for the `u16` fields) and `Int`
(for the `i32` value field and the signed epoch-relative timestamp), with
the `as usize` cast made explicit where it matters.
-/

namespace SenseHat

/-- Decidable equality for `Except`, needed to evaluate the embedded
functions on concrete inputs. -/
instance {ε α : Type} [DecidableEq ε] [DecidableEq α] : DecidableEq (Except ε α) := fun x y =>
  match x, y with
  | Except.ok a, Except.ok b =>
    if h : a = b then isTrue (by rw [h])
    else isFalse (by intro hx; cases hx; exact h rfl)
  | Except.ok _, Except.error _ => isFalse (by intro hx; cases hx)
  | Except.error _, Except.ok _ => isFalse (by intro hx; cases hx)
  | Except.error a, Except.error b =>
    if h : a = b then isTrue (by rw [h])
    else isFalse (by intro hx; cases hx; exact h rfl)

/-- Direction in which the joystick is moved, from the `Direction` enum in
`src/lib.rs` (discriminants 28, 103, 108, 105, 106). -/
inductive Direction
  | Enter
  | Up
  | Down
  | Left
  | Right
deriving DecidableEq

/-- The derived `TryFromPrimitive` conversion for `Direction`: succeeds on
exactly the five declared discriminants. -/
def Direction.tryFromPrimitive (n : Nat) : Option Direction :=
  if n = 28 then some Direction.Enter
  else if n = 103 then some Direction.Up
  else if n = 108 then some Direction.Down
  else if n = 105 then some Direction.Left
  else if n = 106 then some Direction.Right
  else none

/-- The action executed with a given `Direction`, from the `Action` enum in
`src/lib.rs` (discriminants 0, 1, 2). -/
inductive Action
  | Release
  | Press
  | Hold
deriving DecidableEq

/-- The derived `TryFromPrimitive` conversion for `Action`: succeeds on
exactly the three declared discriminants. -/
def Action.tryFromPrimitive (n : Nat) : Option Action :=
  if n = 0 then some Action.Release
  else if n = 1 then some Action.Press
  else if n = 2 then some Action.Hold
  else none

/-- The `i32 as usize` cast performed on `key.value()` (sign extension to 64
bits, reinterpreted as unsigned). -/
def usizeOfI32 (v : Int) : Nat :=
  (v % (2 ^ 64 : Int)).toNat

/-- An event issued by the joystick: a `JoyStickEvent` from `src/lib.rs`.
The `Duration` timestamp is modelled as a `Nat` (elapsed time units since
the UNIX epoch). -/
structure JoyStickEvent where
  timestamp : Nat
  direction : Direction
  action : Action
deriving DecidableEq

/-- `io::ErrorKind` restricted to the kinds this driver constructs or
propagates. -/
inductive ErrorKind
  | NotFound
  | InvalidInput
  | Other
deriving DecidableEq

/-- An `io::Error`: a kind together with its message / underlying cause. -/
structure IOError where
  kind : ErrorKind
  msg : String
deriving DecidableEq

/-- A raw evdev input record as consumed by `poll_next`: `event_type` and
`code` are `u16` (modelled as `Nat`), `value` is `i32` (modelled as `Int`),
and `timestamp` is the record's `SystemTime` expressed as a signed offset
from `UNIX_EPOCH`. -/
structure RawEvent where
  event_type : Nat
  code : Nat
  value : Int
  timestamp : Int
deriving DecidableEq

/-- `SystemTime::duration_since(UNIX_EPOCH)`: succeeds with the elapsed
duration when the time does not predate the epoch, and fails (underflow)
otherwise. -/
def durationSince (t : Int) : Except Unit Nat :=
  if 0 ≤ t then Except.ok t.toNat else Except.error ()

/-- The outcome of one call to `JoyStick::poll_next`, mirroring Rust's
`Poll<Option<io::Result<JoyStickEvent>>>` with an extra `panic` outcome for
the `unwrap` calls on out-of-domain codes/values or pre-epoch timestamps. -/
inductive PollResult
  | pending
  | ready (item : Option (Except IOError JoyStickEvent))
  | panic
deriving DecidableEq

/-- `true` exactly when the poll outcome surfaces a typed error item to the
caller (`Poll::Ready(Some(Err(_)))`). -/
def PollResult.isErrorItem : PollResult → Bool
  | PollResult.ready (some (Except.error _)) => true
  | _ => false

/-- The `poll_next` loop of the `Stream` impl in `src/lib.rs`, over the list
of results the inner `poll_event` will yield before returning `Pending`
(the empty list stands for `Pending`): an I/O error is returned as the next
item; a record whose `event_type` is not 1 is skipped (`continue`); a key
record has its timestamp, code and value decoded (each `unwrap` panicking
on failure) and is emitted as a `JoyStickEvent`. -/
def pollNext : List (Except IOError RawEvent) → PollResult
  | [] => PollResult.pending
  | Except.error e :: _ => PollResult.ready (some (Except.error e))
  | Except.ok key :: rest =>
    if key.event_type ≠ 1 then
      pollNext rest
    else
      match durationSince key.timestamp with
      | Except.error _ => PollResult.panic
      | Except.ok time =>
        match Direction.tryFromPrimitive key.code with
        | none => PollResult.panic
        | some direction =>
          match Action.tryFromPrimitive (usizeOfI32 key.value) with
          | none => PollResult.panic
          | some action =>
            PollResult.ready (some (Except.ok ⟨time, direction, action⟩))

/-- The fixed 31-byte hardware identifier `SENSE_HAT_EVDEV_NAME`
(`b"Raspberry Pi Sense HAT Joystick"`), as its ASCII byte values. -/
def SENSE_HAT_EVDEV_NAME : List Nat :=
  [82, 97, 115, 112, 98, 101, 114, 114, 121, 32, 80, 105, 32, 83, 101,
   110, 115, 101, 32, 72, 65, 84, 32, 74, 111, 121, 115, 116, 105, 99, 107]

/-- An open evdev `Device`: its reported name (`device.name()` returns an
optional string, modelled as the byte list of its UTF-8 contents) and the
result of `device.into_event_stream()`. -/
structure Device where
  name : Option (List Nat)
  into_event_stream : Except IOError Unit
deriving DecidableEq

/-- A `glob::GlobError` yielded for one enumeration entry; `into_error`
extracts the underlying `io::Error`. -/
structure GlobError where
  e : IOError
deriving DecidableEq

/-- `GlobError::into_error()`. -/
def GlobError.into_error (g : GlobError) : IOError := g.e

/-- The enumeration environment `JoyStick::open` runs in: the result of
`glob("/dev/input/event*")` (a pattern error message, or the list of
entries in enumeration order, each a path — abstracted as a `Nat` id — or a
glob error), and the behaviour of `Device::open` on each path. -/
structure Env where
  globResult : Except String (List (Except GlobError Nat))
  openDevice : Nat → Except IOError Device

/-- The entry loop of `JoyStick::open`: walks the enumeration entries in
order, propagating a glob entry error via `into_error`, opening each path
(`?` propagates the open error), returning the first device whose reported
name (empty when absent) equals `SENSE_HAT_EVDEV_NAME` (propagating an
`into_event_stream` error), and failing with `NotFound` / "No Joystick
found" when the entries are exhausted.  The second component is the trace
of paths passed to `Device::open`, in order. -/
def openLoop (openDevice : Nat → Except IOError Device) :
    List (Except GlobError Nat) → Except IOError Nat × List Nat
  | [] => (Except.error ⟨ErrorKind.NotFound, "No Joystick found"⟩, [])
  | Except.error g :: _ => (Except.error g.into_error, [])
  | Except.ok path :: rest =>
    match openDevice path with
    | Except.error e => (Except.error e, [path])
    | Except.ok device =>
      if device.name.getD [] = SENSE_HAT_EVDEV_NAME then
        match device.into_event_stream with
        | Except.error e => (Except.error e, [path])
        | Except.ok _ => (Except.ok path, [path])
      else
        let r := openLoop openDevice rest
        (r.1, path :: r.2)

/-- `JoyStick::open` from `src/lib.rs`: a glob pattern error is mapped to an
`InvalidInput` `io::Error`; otherwise the entry loop runs.  The successful
result is the path of the opened joystick device, paired with the trace of
paths passed to `Device::open`. -/
def JoyStick.open (env : Env) : Except IOError Nat × List Nat :=
  match env.globResult with
  | Except.error msg => (Except.error ⟨ErrorKind.InvalidInput, msg⟩, [])
  | Except.ok entries => openLoop env.openDevice entries

/-- Helper: `poll_next` skips a record whose `event_type` is not 1. -/
theorem pollNext_skip (key : RawEvent) (rest : List (Except IOError RawEvent))
    (h : key.event_type ≠ 1) :
    pollNext (Except.ok key :: rest) = pollNext rest := by
  simp only [pollNext]
  rw [if_pos h]

/-- Helper: on a key record (`event_type = 1`), `poll_next` decodes the
timestamp, code and value in order, panicking at the first failure. -/
theorem pollNext_cons_key (key : RawEvent) (rest : List (Except IOError RawEvent))
    (h : key.event_type = 1) :
    pollNext (Except.ok key :: rest) =
      match durationSince key.timestamp with
      | Except.error _ => PollResult.panic
      | Except.ok time =>
        match Direction.tryFromPrimitive key.code with
        | none => PollResult.panic
        | some direction =>
          match Action.tryFromPrimitive (usizeOfI32 key.value) with
          | none => PollResult.panic
          | some action => PollResult.ready (some (Except.ok ⟨time, direction, action⟩)) := by
  simp only [pollNext]
  rw [if_neg (by simp [h])]

/-- Helper: every `poll_next` outcome is a suspension, a panic, or a real
item; `Ready(None)` is never produced. -/
theorem pollNext_forms (inputs : List (Except IOError RawEvent)) :
    pollNext inputs = PollResult.pending ∨ pollNext inputs = PollResult.panic ∨
      ∃ item, pollNext inputs = PollResult.ready (some item) := by
  induction inputs with
  | nil => exact Or.inl rfl
  | cons head rest ih =>
    cases head with
    | error e => exact Or.inr (Or.inr ⟨Except.error e, rfl⟩)
    | ok key =>
      by_cases h : key.event_type ≠ 1
      · rw [pollNext_skip key rest h]
        exact ih
      · rw [pollNext_cons_key key rest (not_not.mp h)]
        cases hts : durationSince key.timestamp with
        | error u => exact Or.inr (Or.inl rfl)
        | ok time =>
          cases hd : Direction.tryFromPrimitive key.code with
          | none => exact Or.inr (Or.inl rfl)
          | some direction =>
            cases ha : Action.tryFromPrimitive (usizeOfI32 key.value) with
            | none => exact Or.inr (Or.inl rfl)
            | some action =>
              exact Or.inr (Or.inr ⟨Except.ok ⟨time, direction, action⟩, rfl⟩)

/-- C1: For every raw key record, decoding the code field as a `Direction`
maps exactly the five codes 28, 103, 108, 105, 106 to the named variants
`Enter`, `Up`, `Down`, `Left`, `Right` respectively, and succeeds with no
error precisely on these five codes. -/
theorem direction_decode_exact :
    Direction.tryFromPrimitive 28 = some Direction.Enter ∧
    Direction.tryFromPrimitive 103 = some Direction.Up ∧
    Direction.tryFromPrimitive 108 = some Direction.Down ∧
    Direction.tryFromPrimitive 105 = some Direction.Left ∧
    Direction.tryFromPrimitive 106 = some Direction.Right ∧
    ∀ n : Nat, (Direction.tryFromPrimitive n).isSome ↔
      (n = 28 ∨ n = 103 ∨ n = 108 ∨ n = 105 ∨ n = 106) := by
  refine ⟨rfl, rfl, rfl, rfl, rfl, ?_⟩
  intro n
  unfold Direction.tryFromPrimitive
  split_ifs <;> simp_all

/-- C2: For every raw key record, decoding the value field as an `Action`
maps exactly the three codes 0, 1, 2 to the named variants `Release`,
`Press`, `Hold` respectively, and succeeds with no error precisely on these
three codes. -/
theorem action_decode_exact :
    Action.tryFromPrimitive 0 = some Action.Release ∧
    Action.tryFromPrimitive 1 = some Action.Press ∧
    Action.tryFromPrimitive 2 = some Action.Hold ∧
    ∀ n : Nat, (Action.tryFromPrimitive n).isSome ↔ (n = 0 ∨ n = 1 ∨ n = 2) := by
  refine ⟨rfl, rfl, rfl, ?_⟩
  intro n
  unfold Action.tryFromPrimitive
  split_ifs <;> simp_all

/-- C3: For every raw record whose `event_type` field is not equal to 1,
the decoder produces no output event at all (`poll_next` continues with the
remaining records), regardless of the record's code, value and timestamp
contents. -/
theorem non_key_record_filtered (key : RawEvent) (rest : List (Except IOError RawEvent))
    (h : key.event_type ≠ 1) :
    pollNext (Except.ok key :: rest) = pollNext rest :=
  pollNext_skip key rest h

/-- Witness for C3: a synchronization record (`event_type = 0`) contributes
nothing; polling it is the same as polling with it absent. -/
theorem non_key_record_filtered_witness :
    pollNext [Except.ok ⟨0, 28, 1, 5⟩] = pollNext [] :=
  non_key_record_filtered ⟨0, 28, 1, 5⟩ [] (by decide)

/-- C4: Every item `poll_next` ever yields is either a decoded
`JoyStickEvent` or an error; a record filtered out by the `event_type` rule
makes the loop continue with the remaining records, and the stream never
returns `Ready(None)` (an empty value / end-of-sequence marker). -/
theorem poll_next_never_yields_nothing :
    (∀ inputs : List (Except IOError RawEvent),
      pollNext inputs = PollResult.pending ∨ pollNext inputs = PollResult.panic ∨
        ∃ item, pollNext inputs = PollResult.ready (some item)) ∧
    (∀ (key : RawEvent) (rest : List (Except IOError RawEvent)),
      key.event_type ≠ 1 → pollNext (Except.ok key :: rest) = pollNext rest) ∧
    (∀ inputs : List (Except IOError RawEvent), pollNext inputs ≠ PollResult.ready none) := by
  refine ⟨pollNext_forms, pollNext_skip, ?_⟩
  intro inputs hnone
  rcases pollNext_forms inputs with h | h | ⟨item, h⟩ <;> rw [h] at hnone <;> cases hnone

/-- Witness for C4: a non-key record followed by nothing suspends (its
filtering loops back to the next fetch instead of yielding an empty
value). -/
theorem poll_next_never_yields_nothing_witness :
    pollNext [Except.ok ⟨0, 99, 99, 99⟩] = pollNext [] :=
  poll_next_never_yields_nothing.2.1 ⟨0, 99, 99, 99⟩ [] (by decide)

/-- Counterexample for C5: on the key record with code 0 (outside the five
`Direction` codes) the decoder panics (the `unwrap` on
`Direction::try_from` aborts); it does not surface a typed error item. -/
theorem invalid_code_panics_not_typed_error :
    pollNext [Except.ok ⟨1, 0, 0, 0⟩] = PollResult.panic ∧
    (pollNext [Except.ok ⟨1, 0, 0, 0⟩]).isErrorItem = false := by
  exact ⟨by decide, by decide⟩

/-- C5 (amended): For every raw record with `event_type = 1` whose code lies
outside the five valid `Direction` codes, or whose value lies outside the
three valid `Action` codes, decoding aborts with a hard failure (panic) —
not a typed, surfaced error — and never silently substitutes a default
`Direction` or `Action`. -/
theorem invalid_code_or_value_panics (key : RawEvent) (rest : List (Except IOError RawEvent))
    (htype : key.event_type = 1)
    (hbad : Direction.tryFromPrimitive key.code = none ∨
            Action.tryFromPrimitive (usizeOfI32 key.value) = none) :
    pollNext (Except.ok key :: rest) = PollResult.panic := by
  rw [pollNext_cons_key key rest htype]
  cases hts : durationSince key.timestamp with
  | error u => rfl
  | ok time =>
    cases hd : Direction.tryFromPrimitive key.code with
    | none => rfl
    | some direction =>
      cases ha : Action.tryFromPrimitive (usizeOfI32 key.value) with
      | none => rfl
      | some action =>
        rcases hbad with hb | hb
        · rw [hd] at hb
          cases hb
        · rw [ha] at hb
          cases hb

/-- Witness for C5 (amended): the key record with invalid code 0 makes the
decoder panic. -/
theorem invalid_code_or_value_panics_witness :
    pollNext [Except.ok ⟨1, 0, 0, 0⟩] = PollResult.panic :=
  invalid_code_or_value_panics ⟨1, 0, 0, 0⟩ [] rfl (Or.inl (by decide))

/-- C9: For every key record with valid code and value, the emitted
`JoyStickEvent` carries the record's device timestamp expressed as an
elapsed duration since the UNIX epoch; if the recorded timestamp predates
the epoch, decoding is an error condition (the duration-underflow makes the
`unwrap` abort) and no valid timestamp is produced. -/
theorem timestamp_epoch_duration (key : RawEvent) (rest : List (Except IOError RawEvent))
    (d : Direction) (a : Action)
    (htype : key.event_type = 1)
    (hdir : Direction.tryFromPrimitive key.code = some d)
    (hact : Action.tryFromPrimitive (usizeOfI32 key.value) = some a) :
    (0 ≤ key.timestamp →
      pollNext (Except.ok key :: rest) =
        PollResult.ready (some (Except.ok ⟨key.timestamp.toNat, d, a⟩))) ∧
    (key.timestamp < 0 → pollNext (Except.ok key :: rest) = PollResult.panic) := by
  rw [pollNext_cons_key key rest htype]
  constructor
  · intro hts
    have h1 : durationSince key.timestamp = Except.ok key.timestamp.toNat := by
      simp [durationSince, hts]
    rw [h1]
    simp only [hdir, hact]
  · intro hts
    have h1 : durationSince key.timestamp = Except.error () := by
      simp [durationSince]
      omega
    rw [h1]

/-- Witness for C9: a key record at timestamp 7 with code 103 and value 2
decodes to the event with timestamp 7, `Up`, `Hold`. -/
theorem timestamp_epoch_duration_witness :
    pollNext [Except.ok ⟨1, 103, 2, 7⟩] =
      PollResult.ready (some (Except.ok ⟨7, Direction.Up, Action.Hold⟩)) :=
  (timestamp_epoch_duration ⟨1, 103, 2, 7⟩ [] Direction.Up Action.Hold rfl (by decide)
    (by decide)).1 (by decide)

/-- An enumeration entry that the `open` loop skips: it is a path whose
device opens successfully but whose reported name (empty when absent) does
not match `SENSE_HAT_EVDEV_NAME`. -/
def skippable (openDevice : Nat → Except IOError Device) (q : Except GlobError Nat) : Prop :=
  ∃ path dev, q = Except.ok path ∧ openDevice path = Except.ok dev ∧
    dev.name.getD [] ≠ SENSE_HAT_EVDEV_NAME

/-- Helper: a prefix of skippable entries contributes only its opened paths
to the trace and leaves the loop's result untouched. -/
theorem openLoop_skippable_front (openDevice : Nat → Except IOError Device)
    (pre rest : List (Except GlobError Nat))
    (hpre : ∀ q ∈ pre, skippable openDevice q) :
    openLoop openDevice (pre ++ rest) =
      ((openLoop openDevice rest).1,
        pre.filterMap Except.toOption ++ (openLoop openDevice rest).2) := by
  induction pre with
  | nil => simp
  | cons q pre ih =>
    obtain ⟨path, dev, hq, hopen, hname⟩ := hpre q (List.mem_cons_self q pre)
    subst hq
    simp only [List.cons_append, openLoop, hopen, if_neg hname]
    simp only [List.append_eq]
    rw [ih fun r hr => hpre r (List.mem_cons_of_mem _ hr)]
    simp [Except.toOption]

/-- Helper: when the glob succeeds, `JoyStick::open` is the entry loop over
its entries. -/
theorem JoyStick.open_glob_ok (env : Env) (entries : List (Except GlobError Nat))
    (h : env.globResult = Except.ok entries) :
    JoyStick.open env = openLoop env.openDevice entries := by
  unfold JoyStick.open
  rw [h]

/-- C6: `open()` returns a handle to the first enumerated device whose
reported hardware name byte-for-byte equals the fixed 31-byte identifier
"Raspberry Pi Sense HAT Joystick", in whatever order the enumeration
yields candidates; the trace of opened devices stops at the match, so
devices enumerated after it are never opened. -/
theorem open_returns_first_match (env : Env) (pre post : List (Except GlobError Nat))
    (p : Nat) (d : Device)
    (hglob : env.globResult = Except.ok (pre ++ Except.ok p :: post))
    (hpre : ∀ q ∈ pre, skippable env.openDevice q)
    (hopen : env.openDevice p = Except.ok d)
    (hname : d.name.getD [] = SENSE_HAT_EVDEV_NAME)
    (hstream : d.into_event_stream = Except.ok ()) :
    SENSE_HAT_EVDEV_NAME.length = 31 ∧
    JoyStick.open env = (Except.ok p, pre.filterMap Except.toOption ++ [p]) := by
  refine ⟨by decide, ?_⟩
  rw [JoyStick.open_glob_ok env _ hglob]
  rw [openLoop_skippable_front env.openDevice pre _ hpre]
  simp only [openLoop, hopen, if_pos hname, hstream]

/-- Witness devices and environment for the locator scenarios: "Mouse",
the Sense HAT joystick, "Keyboard", in that enumeration order. -/
def mouseDevice : Device := ⟨some [77, 111, 117, 115, 101], Except.ok ()⟩

/-- The matching device: reports exactly the 31-byte identifier. -/
def senseDevice : Device := ⟨some SENSE_HAT_EVDEV_NAME, Except.ok ()⟩

/-- A third, never-opened device named "Keyboard". -/
def keyboardDevice : Device := ⟨some [75, 101, 121, 98, 111, 97, 114, 100], Except.ok ()⟩

/-- Environment with entries Mouse (path 0), Sense HAT (path 1), Keyboard
(path 2). -/
def threeDeviceEnv : Env :=
  ⟨Except.ok [Except.ok 0, Except.ok 1, Except.ok 2],
   fun path =>
     if path = 0 then Except.ok mouseDevice
     else if path = 1 then Except.ok senseDevice
     else Except.ok keyboardDevice⟩

/-- Witness for C6: in the Mouse / Sense HAT / Keyboard scenario, `open()`
returns the handle for the second entry, and only paths 0 and 1 are ever
opened (the Keyboard at path 2 is not). -/
theorem open_returns_first_match_witness :
    SENSE_HAT_EVDEV_NAME.length = 31 ∧
    JoyStick.open threeDeviceEnv = (Except.ok 1, [0, 1]) := by
  have h := open_returns_first_match threeDeviceEnv [Except.ok 0] [Except.ok 2] 1 senseDevice
    rfl
    (by
      intro q hq
      rw [List.mem_singleton] at hq
      subst hq
      exact ⟨0, mouseDevice, rfl, rfl, by decide⟩)
    rfl rfl rfl
  exact ⟨h.1, h.2⟩

/-- C7: if every enumerated candidate opens successfully but none reports
the matching hardware name, `open()` fails with a `NotFound` error carrying
the human-readable message "No Joystick found". -/
theorem open_no_match_not_found (env : Env) (entries : List (Except GlobError Nat))
    (hglob : env.globResult = Except.ok entries)
    (hall : ∀ q ∈ entries, skippable env.openDevice q) :
    (JoyStick.open env).1 = Except.error ⟨ErrorKind.NotFound, "No Joystick found"⟩ := by
  rw [JoyStick.open_glob_ok env _ hglob]
  have h := openLoop_skippable_front env.openDevice entries [] hall
  rw [List.append_nil] at h
  rw [h]
  rfl

/-- Environment with a single non-matching device for the C7 scenario. -/
def mouseOnlyEnv : Env :=
  ⟨Except.ok [Except.ok 0], fun _ => Except.ok mouseDevice⟩

/-- Witness for C7: with only the Mouse present, `open()` fails with
`NotFound` and its descriptive message. -/
theorem open_no_match_not_found_witness :
    (JoyStick.open mouseOnlyEnv).1 =
      Except.error ⟨ErrorKind.NotFound, "No Joystick found"⟩ :=
  open_no_match_not_found mouseOnlyEnv [Except.ok 0] rfl
    (by
      intro q hq
      rw [List.mem_singleton] at hq
      subst hq
      exact ⟨0, mouseDevice, rfl, rfl, by decide⟩)

/-- C8: during enumeration, if opening a candidate device fails, `open()`
returns that candidate's error immediately — the trace ends at the failing
path, so no later candidate is tried; only devices that open successfully
and whose name does not match are skipped. -/
theorem open_error_propagates (env : Env) (pre post : List (Except GlobError Nat))
    (p : Nat) (e : IOError)
    (hglob : env.globResult = Except.ok (pre ++ Except.ok p :: post))
    (hpre : ∀ q ∈ pre, skippable env.openDevice q)
    (hopen : env.openDevice p = Except.error e) :
    JoyStick.open env = (Except.error e, pre.filterMap Except.toOption ++ [p]) := by
  rw [JoyStick.open_glob_ok env _ hglob]
  rw [openLoop_skippable_front env.openDevice pre _ hpre]
  simp only [openLoop, hopen]

/-- Environment whose second entry fails to open (permissions), with a
third entry after it. -/
def failingOpenEnv : Env :=
  ⟨Except.ok [Except.ok 0, Except.ok 1, Except.ok 2],
   fun path =>
     if path = 0 then Except.ok mouseDevice
     else Except.error ⟨ErrorKind.Other, "permission denied"⟩⟩

/-- Witness for C8: the failing candidate's error is returned at once, with
only paths 0 and 1 opened — path 2 is never tried. -/
theorem open_error_propagates_witness :
    JoyStick.open failingOpenEnv =
      (Except.error ⟨ErrorKind.Other, "permission denied"⟩, [0, 1]) := by
  have h := open_error_propagates failingOpenEnv [Except.ok 0] [Except.ok 2] 1
    ⟨ErrorKind.Other, "permission denied"⟩
    rfl
    (by
      intro q hq
      rw [List.mem_singleton] at hq
      subst hq
      exact ⟨0, mouseDevice, rfl, rfl, by decide⟩)
    rfl
  exact h

/-- C10: a candidate device that opens successfully but reports no hardware
name is treated as having the empty name; the empty name necessarily fails
the 31-byte comparison, and the entry is silently skipped (the loop's
result on the remaining entries is unchanged, with only the trace recording
the open). -/
theorem unnamed_device_skipped (openDevice : Nat → Except IOError Device)
    (p : Nat) (d : Device) (rest : List (Except GlobError Nat))
    (hopen : openDevice p = Except.ok d)
    (hname : d.name = none) :
    d.name.getD [] = ([] : List Nat) ∧
    d.name.getD [] ≠ SENSE_HAT_EVDEV_NAME ∧
    openLoop openDevice (Except.ok p :: rest) =
      ((openLoop openDevice rest).1, p :: (openLoop openDevice rest).2) := by
  rw [hname]
  refine ⟨rfl, by decide, ?_⟩
  simp only [openLoop, hopen, hname]
  rw [if_neg (by decide)]

/-- A device that opens but reports no name. -/
def anonymousDevice : Device := ⟨none, Except.ok ()⟩

/-- Witness for C10: the nameless device at path 0 is skipped without an
error; the loop then exhausts the entries and reports `NotFound`, with the
trace showing path 0 was opened. -/
theorem unnamed_device_skipped_witness :
    openLoop (fun _ => Except.ok anonymousDevice) [Except.ok 0] =
      (Except.error ⟨ErrorKind.NotFound, "No Joystick found"⟩, [0]) := by
  have h := unnamed_device_skipped (fun _ => Except.ok anonymousDevice) 0 anonymousDevice []
    rfl rfl
  exact h.2.2

end SenseHat
